import Mathlib

/-!
Verification development for the Firefox Global Media Controller extension.

The definitions below are a shallow embedding of the relevant parts of the
source files:
  background.js  — MediaSessionManager (the Coordinator)
  mediaAgent.js  — MediaAgent (the per-context Source/Automation Adapter)
  popup.js       — MediaControllerPopup (the Control Surface)

JavaScript Map objects are modelled as association lists preserving insertion
order (first entry for a key wins, matching Map semantics where keys are
unique).  Timestamps (Date.now values) are naturals; media times, volumes and
scores (JS floating point numbers in ordinary ranges) are rationals.
-/

/-- Model of JS Map.prototype.get: first entry whose key matches. -/
def mapGet {α : Type} (m : List (String × α)) (k : String) : Option α :=
  match m with
  | [] => none
  | p :: rest => if p.1 = k then some p.2 else mapGet rest k

/-- Model of JS Map.prototype.set: replace in place when the key exists,
append otherwise (Map preserves insertion order on update). -/
def mapSet {α : Type} (m : List (String × α)) (k : String) (v : α) : List (String × α) :=
  match m with
  | [] => [(k, v)]
  | p :: rest => if p.1 = k then (k, v) :: rest else p :: mapSet rest k v

/-- Model of JS Map.prototype.delete for the entries of key k. -/
def mapDelete {α : Type} (m : List (String × α)) (k : String) : List (String × α) :=
  match m with
  | [] => []
  | p :: rest => if p.1 = k then mapDelete rest k else p :: mapDelete rest k

/-- The normalized playback state shape emitted by every adapter
(mediaAgent.js, sendUpdate and sendSpotifyUpdate). -/
structure MediaState where
  paused : Bool
  muted : Bool
  volume : ℚ
  currentTime : ℚ
  duration : ℚ
  canSeek : Bool
  ended : Bool
deriving DecidableEq, Repr

/-- The payload of a SESSION_UPDATE message (mediaAgent.js, sendUpdate). -/
structure SessionData where
  title : String
  artworkUrl : Option String
  state : MediaState
deriving DecidableEq, Repr

/-- Tab metadata read from browserAPI.tabs.get in updateSession. -/
structure TabInfo where
  title : String
  url : String
  favIconUrl : String
deriving DecidableEq, Repr

/-- A session record as stored in the Coordinator registry
(background.js, updateSession). -/
structure Session where
  id : String
  tabId : Nat
  frameId : Nat
  title : String
  url : String
  favIconUrl : String
  artworkUrl : Option String
  state : MediaState
  lastActiveAt : Nat
deriving DecidableEq, Repr

/-- The mutable state of MediaSessionManager (background.js): the session
registry, the active-session id, and the per-session broadcast timestamps. -/
structure ManagerState where
  sessions : List (String × Session)
  lastActiveSessionId : Option String
  lastBroadcastTimestamps : List (String × Nat)
deriving DecidableEq, Repr

/-- Session id construction in background.js, updateSession. -/
def sessionKey (tabId frameId : Nat) : String :=
  toString tabId ++ ":" ++ toString frameId

/-- The session object built by updateSession before the lastActiveAt
decision (background.js, updateSession): metadata merged from the snapshot
and the tab, with lastActiveAt preserved from the previous record, or now for
a new session. -/
def baseSession (st : ManagerState) (sessionData : SessionData)
    (tabId frameId : Nat) (tab : TabInfo) (now : Nat) : Session :=
  let sessionId := sessionKey tabId frameId
  let lastActiveAt : Nat :=
    match mapGet st.sessions sessionId with
    | some p => p.lastActiveAt
    | none => now
  { id := sessionId, tabId := tabId, frameId := frameId
    title := if sessionData.title = "" then tab.title else sessionData.title
    url := tab.url, favIconUrl := tab.favIconUrl
    artworkUrl := sessionData.artworkUrl
    state := sessionData.state
    lastActiveAt := lastActiveAt }

/-- The condition of the lastActiveAt update in background.js, updateSession:
a previously paused record now playing, or a new session that is playing (the
prev.state truthiness test always succeeds because every stored record
carries a state). -/
def becameActive (prev : Option Session) (sessionData : SessionData) : Bool :=
  match prev with
  | some p => p.state.paused && !sessionData.state.paused
  | none => !sessionData.state.paused

/-- The record actually stored by updateSession: lastActiveAt bumped to now
exactly on the becameActive condition. -/
def storedSession (st : ManagerState) (sessionData : SessionData)
    (tabId frameId : Nat) (tab : TabInfo) (now : Nat) : Session :=
  let base := baseSession st sessionData tabId frameId tab now
  if becameActive (mapGet st.sessions (sessionKey tabId frameId)) sessionData then
    { base with lastActiveAt := now }
  else base

/-- The isStateChange flag of background.js, updateSession. -/
def isStateChange (prev : Option Session) (sessionData : SessionData) : Bool :=
  match prev with
  | none => true
  | some p => p.state.paused != sessionData.state.paused

/-- The shouldBroadcast decision of background.js, updateSession, with the
300ms throttle against the per-session last broadcast timestamp (absent
entries read as 0 through the zero fallback). -/
def shouldBroadcast (st : ManagerState) (sessionId : String)
    (prev : Option Session) (sessionData : SessionData) (now : Nat) : Bool :=
  let lastBroadcast := (mapGet st.lastBroadcastTimestamps sessionId).getD 0
  isStateChange prev sessionData
    || decide ((300 : ℤ) ≤ (now : ℤ) - (lastBroadcast : ℤ))
    || prev.isNone

/-- background.js, MediaSessionManager.updateSession.  Returns the new manager
state together with whether a SESSION_UPDATED broadcast was sent.  The
asynchronous tabs.get callback is embedded as atomic processing of one
snapshot; broadcasting to ports is abstracted to the returned Bool. -/
def updateSession (st : ManagerState) (sessionData : SessionData)
    (tabId frameId : Nat) (tab : TabInfo) (now : Nat) : ManagerState × Bool :=
  let sessionId := sessionKey tabId frameId
  let prev := mapGet st.sessions sessionId
  let session := storedSession st sessionData tabId frameId tab now
  let lastActiveSessionId :=
    if becameActive prev sessionData then some sessionId else st.lastActiveSessionId
  let sessions := mapSet st.sessions sessionId session
  if shouldBroadcast st sessionId prev sessionData now then
    ({ sessions := sessions, lastActiveSessionId := lastActiveSessionId
       lastBroadcastTimestamps := mapSet st.lastBroadcastTimestamps sessionId now }, true)
  else
    ({ sessions := sessions, lastActiveSessionId := lastActiveSessionId
       lastBroadcastTimestamps := st.lastBroadcastTimestamps }, false)

/-- Loop body of background.js, findMostRecentActiveSession: scan the registry
in insertion order keeping the strictly greatest lastActiveAt seen so far. -/
def findMostRecent (l : List (String × Session)) (best : Option String)
    (bestTime : Nat) : Option String :=
  match l with
  | [] => best
  | p :: rest =>
    if bestTime < p.2.lastActiveAt then findMostRecent rest (some p.2.id) p.2.lastActiveAt
    else findMostRecent rest best bestTime

/-- background.js, MediaSessionManager.findMostRecentActiveSession. -/
def findMostRecentActiveSession (sessions : List (String × Session)) : Option String :=
  findMostRecent sessions none 0

/-- background.js, MediaSessionManager.removeSession.  Returns the new state
together with whether a SESSION_REMOVED broadcast was sent (the body of the
conditional runs only when Map.delete returns true). -/
def removeSession (st : ManagerState) (sessionId : String) : ManagerState × Bool :=
  let present := (mapGet st.sessions sessionId).isSome
  let sessions := mapDelete st.sessions sessionId
  if present then
    let lastActive :=
      if st.lastActiveSessionId = some sessionId then
        findMostRecentActiveSession sessions
      else st.lastActiveSessionId
    ({ st with sessions := sessions, lastActiveSessionId := lastActive }, true)
  else
    ({ st with sessions := sessions }, false)

/-- The observable properties of a candidate media element consulted by
mediaAgent.js, scoreMediaElement.  duration is none when the element reports
NaN or no duration (a falsy or NaN value skips the duration bonus). -/
structure MediaElementInfo where
  disableRemotePlayback : Bool
  readyState : Nat
  paused : Bool
  currentTime : ℚ
  duration : Option ℚ
  offsetWidth : Nat
  offsetHeight : Nat
  isVideo : Bool
  muted : Bool
  hasSrcOrChildren : Bool
deriving DecidableEq, Repr

/-- mediaAgent.js, MediaAgent.scoreMediaElement. -/
def scoreMediaElement (e : MediaElementInfo) : ℚ :=
  if e.disableRemotePlayback then -1
  else
    let s : ℚ := 0
    let s := if e.readyState = 0 then s - 10 else s
    let s := if !e.paused then s + 100 else s
    let s := if e.currentTime > 0 then s + 50 else s
    let s :=
      match e.duration with
      | some d => if d ≠ 0 then s + min (d / 60) 30 else s
      | none => s
    let s := if e.offsetWidth > 0 && e.offsetHeight > 0 then s + 20 else s
    let s := if e.isVideo then s + 10 else s
    let s := if !e.muted then s + 10 else s
    let s := if e.hasSrcOrChildren then s + 5 else s
    s

/-- The selection loop of mediaAgent.js, findAndAttachMedia: bestScore starts
at -1 and is replaced only on a strictly greater score. -/
def findBestGo (elements : List MediaElementInfo) (bestElement : Option MediaElementInfo)
    (bestScore : ℚ) : Option MediaElementInfo × ℚ :=
  match elements with
  | [] => (bestElement, bestScore)
  | e :: rest =>
    if bestScore < scoreMediaElement e then findBestGo rest (some e) (scoreMediaElement e)
    else findBestGo rest bestElement bestScore

/-- mediaAgent.js, MediaAgent.findAndAttachMedia restricted to its selection
decision: the element attached to, if any (the retry timer taken on a none
result is not modelled, nor is the Spotify virtual-element branch that runs
only when the candidate list is empty). -/
def findAndAttachMedia (elements : List MediaElementInfo) : Option MediaElementInfo :=
  match findBestGo elements none (-1) with
  | (some bestElement, bestScore) => if 0 ≤ bestScore then some bestElement else none
  | (none, _) => none

/-- mediaAgent.js, MediaAgent.parseTimeString: characters kept by the
replace of every character that is neither a digit nor a colon. -/
def cleanTimeChars (l : List Char) : List Char :=
  l.filter (fun c => c.isDigit || c = ':')

/-- Model of JS String.prototype.split with a colon separator: the empty
string yields one empty part, and each colon opens a new part. -/
def splitCols (l : List Char) : List (List Char) :=
  match l with
  | [] => [[]]
  | c :: rest =>
    let r := splitCols rest
    if c = ':' then [] :: r
    else
      match r with
      | [] => [[c]]
      | h :: t => (c :: h) :: t

/-- Model of the JS idiom parseInt(part, 10) with a zero fallback applied to a
part produced by the split: on an empty part parseInt yields NaN and the
fallback gives 0; on digits it gives their value. -/
def digitsToNat (l : List Char) : Nat :=
  l.foldl (fun acc c => acc * 10 + (c.toNat - 48)) 0

/-- mediaAgent.js, MediaAgent.parseTimeString.  The none input models a null
or undefined argument, which the falsy guard maps to 0 together with the
empty string. -/
def parseTimeString (timeStr : Option String) : Nat :=
  match timeStr with
  | none => 0
  | some s =>
    if s = "" then 0
    else
      match splitCols (cleanTimeChars s.data) with
      | [m, sec] => digitsToNat m * 60 + digitsToNat sec
      | [h, m, sec] => digitsToNat h * 3600 + digitsToNat m * 60 + digitsToNat sec
      | _ => 0

/-- One entry of the optimistic side-table of popup.js
(sessionId mapped to the assumed paused flag and the toggle timestamp). -/
structure OptimisticState where
  paused : Bool
  timestamp : Nat
deriving DecidableEq, Repr

/-- The state of MediaControllerPopup relevant to reconciliation: the local
session mirror and the optimistic side-table. -/
structure PopupState where
  sessions : List (String × Session)
  optimisticStates : List (String × OptimisticState)
deriving DecidableEq, Repr

/-- popup.js, the SESSION_UPDATED branch of
MediaControllerPopup.handleBackgroundMessage: a fresh-enough optimistic entry
overrides the paused field of the incoming session, an expired or absent one
is dropped, then the local mirror stores the (possibly adjusted) session. -/
def handleSessionUpdated (ps : PopupState) (session : Session) (now : Nat) : PopupState :=
  match mapGet ps.optimisticStates session.id with
  | some optState =>
    if (now : ℤ) - (optState.timestamp : ℤ) < 1000 then
      let adjusted := { session with state := { session.state with paused := optState.paused } }
      { ps with sessions := mapSet ps.sessions adjusted.id adjusted }
    else
      { sessions := mapSet ps.sessions session.id session
        optimisticStates := mapDelete ps.optimisticStates session.id }
  | none =>
    { sessions := mapSet ps.sessions session.id session
      optimisticStates := mapDelete ps.optimisticStates session.id }

/-- Commands sent by the popup through sendControlCommand. -/
inductive PopupCommand where
  | toggle
  | seek (delta : ℚ)
  | setTime (time : ℚ)
  | beginSeek
  | endSeek
  | setVolume (volume : ℚ)
  | mute
deriving DecidableEq, Repr

/-- popup.js, MediaControllerPopup.handleToggle: flip the mirrored paused
flag, record the optimistic entry stamped with the toggle time, and send one
toggle command.  Returns the new popup state and the emitted commands. -/
def handleToggle (ps : PopupState) (sessionId : String) (now : Nat) :
    PopupState × List PopupCommand :=
  match mapGet ps.sessions sessionId with
  | none => (ps, [])
  | some session =>
    let newPausedState := !session.state.paused
    let session := { session with state := { session.state with paused := newPausedState } }
    ({ sessions := mapSet ps.sessions sessionId session
       optimisticStates := mapSet ps.optimisticStates sessionId
         { paused := newPausedState, timestamp := now } },
     [PopupCommand.toggle])

/-- The DOM pieces of one session card that updateSessionCardDOM writes
(popup.js).  dragging models the dragging class on the progress bar; the
volumeFocused flag models the slider being the active element. -/
structure CardView where
  title : String
  artist : String
  pausedIcon : Bool
  volume : ℚ
  mutedIcon : Bool
  progressFillPct : ℚ
  progressHandlePct : ℚ
  currentTimeText : String
  durationText : String
  dragging : Bool
  volumeFocused : Bool
deriving DecidableEq, Repr

/-- popup.js, MediaControllerPopup.parseMetadata. -/
def parseMetadata (title : String) : String × String :=
  if title = "" then ("Unknown Title", "Unknown Artist")
  else
    match title.splitOn " - " with
    | t :: rest => if rest ≠ [] then (t, String.intercalate " - " rest) else (title, "")
    | [] => (title, "")

/-- JS String.prototype.padStart with width 2 and a zero pad, as used on the
seconds field of formatTime. -/
def padTwo (n : Nat) : String :=
  if n < 10 then "0" ++ toString n else toString n

/-- popup.js, MediaControllerPopup.formatTime, for the nonnegative second
counts media playback produces (the falsy guard maps 0 to 0:00). -/
def formatTime (seconds : ℚ) : String :=
  if seconds = 0 then "0:00"
  else
    let m : ℤ := ⌊seconds / 60⌋
    let s : ℤ := ⌊seconds - (m : ℚ) * 60⌋
    toString m ++ ":" ++ padTwo s.toNat

/-- popup.js, MediaControllerPopup.updateProgressBarVisuals.  The zero or
unknown duration branch resets the fill and handle and leaves the time text
untouched, exactly as the early return does. -/
def updateProgressBarVisuals (card : CardView) (state : MediaState) : CardView :=
  if state.duration = 0 then
    { card with progressFillPct := 0, progressHandlePct := 0 }
  else
    let pct := state.currentTime / state.duration * 100
    { card with
      progressFillPct := pct
      progressHandlePct := pct
      currentTimeText := formatTime state.currentTime
      durationText := formatTime state.duration }

/-- popup.js, MediaControllerPopup.updateSessionCardDOM restricted to the card
fields modelled: metadata, play and mute icons, volume (skipped while the
slider is focused), and the progress visuals guarded by the dragging class. -/
def updateSessionCardDOM (card : CardView) (session : Session) : CardView :=
  let meta := parseMetadata session.title
  let card := { card with
    title := meta.1
    artist := meta.2
    pausedIcon := session.state.paused
    volume := if card.volumeFocused then card.volume else session.state.volume
    mutedIcon := session.state.muted }
  if card.dragging then card
  else updateProgressBarVisuals card session.state

/-- popup.js, the onEnd closure of addProgressBarDragSupport: clear the
dragging flag and emit setTime with the time recomputed from the fill
percentage, then endSeek.  Returns the updated card and the emitted commands
in order. -/
def onDragEnd (card : CardView) (sessionDuration : ℚ) : CardView × List PopupCommand :=
  let card := { card with dragging := false }
  let pct := card.progressFillPct / 100
  let finalTime := pct * sessionDuration
  (card, [PopupCommand.setTime finalTime, PopupCommand.endSeek])

/-- Identity of a media element in a context, with the virtual flag consulted
by attach and detach (mediaAgent.js). -/
structure ElementRef where
  elemId : Nat
  isVirtual : Bool
deriving DecidableEq, Repr

/-- The agent state relevant to listener lifecycle (mediaAgent.js).  Each call
of Function.prototype.bind produces a fresh function object; nextFnId numbers
these objects so that listener identity can be compared the way
removeEventListener compares it. -/
structure AgentState where
  mediaElement : Option ElementRef
  updateThrottle : Option Nat
  nextFnId : Nat
  listeners : List (ElementRef × String × Nat)
deriving DecidableEq, Repr

/-- The events subscribed in mediaAgent.js, attachToElement. -/
def agentEvents : List String :=
  ["play", "pause", "timeupdate", "durationchange", "volumechange", "seeked",
   "emptied", "ended"]

/-- addEventListener: registers the given function object for the event. -/
def addListener (st : AgentState) (el : ElementRef) (ev : String) (fnId : Nat) : AgentState :=
  { st with listeners := st.listeners ++ [(el, ev, fnId)] }

/-- removeEventListener: removes a registration only when the very same
function object was registered for that element and event. -/
def removeListener (st : AgentState) (el : ElementRef) (ev : String) (fnId : Nat) : AgentState :=
  { st with listeners :=
      st.listeners.filter (fun t => !(t.1 = el ∧ t.2.1 = ev ∧ t.2.2 = fnId)) }

/-- Model of this.handleMediaEvent.bind(this) and friends: allocate a fresh
function object. -/
def freshFn (st : AgentState) : Nat × AgentState :=
  (st.nextFnId, { st with nextFnId := st.nextFnId + 1 })

/-- mediaAgent.js, MediaAgent.detachFromElement.  For a real element the code
calls removeEventListener for the play and pause events only, each time with
a freshly bound function object, then clears the media element and any
pending coalescing timer. -/
def detachFromElement (st : AgentState) : AgentState :=
  let st :=
    match st.mediaElement with
    | some el =>
      if !el.isVirtual then
        let (f1, st) := freshFn st
        let st := removeListener st el "play" f1
        let (f2, st) := freshFn st
        removeListener st el "pause" f2
      else st
    | none => st
  let st := { st with mediaElement := none }
  match st.updateThrottle with
  | some _ => { st with updateThrottle := none }
  | none => st

/-- mediaAgent.js, MediaAgent.attachToElement: detach, take the new element,
and for a real element register one freshly bound listener per event. -/
def attachToElement (st : AgentState) (element : ElementRef) : AgentState :=
  let st := detachFromElement st
  let st := { st with mediaElement := some element }
  if !element.isVirtual then
    agentEvents.foldl (fun s ev =>
      let (f, s) := freshFn s
      addListener s element ev f) st
  else st

/- Concrete fixtures used by the counterexample and witness statements. -/

/-- An empty coordinator registry. -/
def mgr0 : ManagerState :=
  { sessions := [], lastActiveSessionId := none, lastBroadcastTimestamps := [] }

/-- A fixed tab metadata record. -/
def tab0 : TabInfo :=
  { title := "Tab", url := "https://example.test/", favIconUrl := "icon" }

/-- A playing snapshot state at the given position and duration. -/
def statePlaying (ct d : ℚ) : MediaState :=
  { paused := false, muted := false, volume := 1, currentTime := ct,
    duration := d, canSeek := true, ended := false }

/-- A paused snapshot state at the given position and duration. -/
def statePaused (ct d : ℚ) : MediaState :=
  { statePlaying ct d with paused := true }

/-- A snapshot payload around the given state. -/
def snap (s : MediaState) : SessionData :=
  { title := "Song", artworkUrl := none, state := s }

/-- A paused session record fixture with id a and lastActiveAt 500. -/
def sessA : Session :=
  { id := "a", tabId := 1, frameId := 0, title := "A", url := "u", favIconUrl := "f",
    artworkUrl := none, state := statePaused 0 100, lastActiveAt := 500 }

/-- A paused session record fixture with id b and lastActiveAt 900. -/
def sessB : Session :=
  { id := "b", tabId := 2, frameId := 0, title := "B", url := "u", favIconUrl := "f",
    artworkUrl := none, state := statePaused 0 100, lastActiveAt := 900 }

/-- A registry holding sessions a and b with a as the active session. -/
def mgrAB : ManagerState :=
  { sessions := [("a", sessA), ("b", sessB)], lastActiveSessionId := some "a",
    lastBroadcastTimestamps := [] }

/-- A paused session record fixture with the composite id 1:0. -/
def sessP : Session :=
  { id := "1:0", tabId := 1, frameId := 0, title := "P", url := "u", favIconUrl := "f",
    artworkUrl := none, state := statePaused 0 100, lastActiveAt := 100 }

/-- A popup mirror holding only the paused session fixture. -/
def pop1 : PopupState :=
  { sessions := [("1:0", sessP)], optimisticStates := [] }

/-- A dragging card fixture. -/
def cardDrag : CardView :=
  { title := "T", artist := "A", pausedIcon := false, volume := 1, mutedIcon := false,
    progressFillPct := 40, progressHandlePct := 40, currentTimeText := "0:40",
    durationText := "1:40", dragging := true, volumeFocused := false }

theorem mapGet_set_self {α : Type} (m : List (String × α)) (k : String) (v : α) :
    mapGet (mapSet m k v) k = some v := by
  induction m with
  | nil => simp [mapGet, mapSet]
  | cons p rest ih =>
    by_cases h : p.1 = k
    · simp [mapGet, mapSet, h]
    · simp [mapGet, mapSet, h, ih]

theorem mapGet_set_ne {α : Type} (m : List (String × α)) (k k' : String) (v : α)
    (h : k ≠ k') : mapGet (mapSet m k v) k' = mapGet m k' := by
  induction m with
  | nil => simp [mapGet, mapSet, h]
  | cons p rest ih =>
    by_cases hp : p.1 = k
    · subst hp
      simp [mapGet, mapSet, h]
    · simp only [mapSet, if_neg hp]
      by_cases hp' : p.1 = k'
      · simp [mapGet, hp']
      · simp [mapGet, hp', ih]

theorem mapGet_delete_self {α : Type} (m : List (String × α)) (k : String) :
    mapGet (mapDelete m k) k = none := by
  induction m with
  | nil => simp [mapGet, mapDelete]
  | cons p rest ih =>
    by_cases h : p.1 = k
    · simp [mapDelete, h, ih]
    · simp [mapDelete, mapGet, h, ih]

theorem mapDelete_of_get_none {α : Type} (m : List (String × α)) (k : String)
    (h : mapGet m k = none) : mapDelete m k = m := by
  induction m with
  | nil => simp [mapDelete]
  | cons p rest ih =>
    by_cases hp : p.1 = k
    · simp [mapGet, hp] at h
    · simp only [mapGet, if_neg hp] at h
      simp [mapDelete, hp, ih h]

theorem updateSession_sessions (st : ManagerState) (sd : SessionData)
    (tabId frameId : Nat) (tab : TabInfo) (now : Nat) :
    (updateSession st sd tabId frameId tab now).1.sessions =
      mapSet st.sessions (sessionKey tabId frameId)
        (storedSession st sd tabId frameId tab now) := by
  unfold updateSession
  dsimp only
  split <;> rfl

theorem updateSession_pointer (st : ManagerState) (sd : SessionData)
    (tabId frameId : Nat) (tab : TabInfo) (now : Nat) :
    (updateSession st sd tabId frameId tab now).1.lastActiveSessionId =
      if becameActive (mapGet st.sessions (sessionKey tabId frameId)) sd then
        some (sessionKey tabId frameId)
      else st.lastActiveSessionId := by
  unfold updateSession
  dsimp only
  split <;> rfl

theorem updateSession_broadcast (st : ManagerState) (sd : SessionData)
    (tabId frameId : Nat) (tab : TabInfo) (now : Nat) :
    (updateSession st sd tabId frameId tab now).2 =
      shouldBroadcast st (sessionKey tabId frameId)
        (mapGet st.sessions (sessionKey tabId frameId)) sd now := by
  unfold updateSession
  dsimp only
  split <;> simp_all

theorem updateSession_timestamps (st : ManagerState) (sd : SessionData)
    (tabId frameId : Nat) (tab : TabInfo) (now : Nat) :
    (updateSession st sd tabId frameId tab now).1.lastBroadcastTimestamps =
      if shouldBroadcast st (sessionKey tabId frameId)
          (mapGet st.sessions (sessionKey tabId frameId)) sd now then
        mapSet st.lastBroadcastTimestamps (sessionKey tabId frameId) now
      else st.lastBroadcastTimestamps := by
  unfold updateSession
  dsimp only
  split <;> simp_all

theorem storedSession_state (st : ManagerState) (sd : SessionData)
    (tabId frameId : Nat) (tab : TabInfo) (now : Nat) :
    (storedSession st sd tabId frameId tab now).state = sd.state := by
  unfold storedSession baseSession
  dsimp only
  split <;> rfl

/-- Invariant of the scan: either no entry beats the incoming best time and
the accumulator is returned, or the result is the id of an entry strictly
above it that no listed entry outranks. -/
theorem findMostRecent_spec (l : List (String × Session)) :
    ∀ (best : Option String) (bestTime : Nat),
      (findMostRecent l best bestTime = best ∧ ∀ q ∈ l, q.2.lastActiveAt ≤ bestTime) ∨
      (∃ p, p ∈ l ∧ findMostRecent l best bestTime = some p.2.id ∧
        bestTime < p.2.lastActiveAt ∧ ∀ q ∈ l, q.2.lastActiveAt ≤ p.2.lastActiveAt) := by
  induction l with
  | nil =>
    intro best bestTime
    left
    simp [findMostRecent]
  | cons r rest ih =>
    intro best bestTime
    by_cases h : bestTime < r.2.lastActiveAt
    · simp only [findMostRecent, if_pos h]
      rcases ih (some r.2.id) r.2.lastActiveAt with ⟨heq, hall⟩ | ⟨p, hp, heq, hlt, hall⟩
      · right
        refine ⟨r, List.mem_cons_self r rest, heq, h, ?_⟩
        intro q hq
        rcases List.mem_cons.mp hq with rfl | hq
        · exact le_refl _
        · exact hall q hq
      · right
        refine ⟨p, List.mem_cons_of_mem r hp, heq, lt_trans h hlt, ?_⟩
        intro q hq
        rcases List.mem_cons.mp hq with rfl | hq
        · exact le_of_lt hlt
        · exact hall q hq
    · simp only [findMostRecent, if_neg h]
      rcases ih best bestTime with ⟨heq, hall⟩ | ⟨p, hp, heq, hlt, hall⟩
      · left
        refine ⟨heq, ?_⟩
        intro q hq
        rcases List.mem_cons.mp hq with rfl | hq
        · exact Nat.le_of_not_lt h
        · exact hall q hq
      · right
        refine ⟨p, List.mem_cons_of_mem r hp, heq, hlt, ?_⟩
        intro q hq
        rcases List.mem_cons.mp hq with rfl | hq
        · exact le_trans (Nat.le_of_not_lt h) (le_of_lt hlt)
        · exact hall q hq

/-- Invariant of the selection loop: either no candidate beats the incoming
best score and the accumulator is returned unchanged, or the result is a
candidate strictly above the incoming score that no listed candidate
outscores. -/
theorem findBestGo_spec (l : List MediaElementInfo) :
    ∀ (be : Option MediaElementInfo) (bs : ℚ),
      (findBestGo l be bs = (be, bs) ∧ ∀ e ∈ l, scoreMediaElement e ≤ bs) ∨
      (∃ p, p ∈ l ∧ findBestGo l be bs = (some p, scoreMediaElement p) ∧
        bs < scoreMediaElement p ∧ ∀ e ∈ l, scoreMediaElement e ≤ scoreMediaElement p) := by
  induction l with
  | nil =>
    intro be bs
    left
    simp [findBestGo]
  | cons q rest ih =>
    intro be bs
    by_cases h : bs < scoreMediaElement q
    · simp only [findBestGo, if_pos h]
      rcases ih (some q) (scoreMediaElement q) with ⟨heq, hall⟩ | ⟨p, hp, heq, hlt, hall⟩
      · right
        refine ⟨q, List.mem_cons_self q rest, heq, h, ?_⟩
        intro e he
        rcases List.mem_cons.mp he with rfl | he
        · exact le_refl _
        · exact hall e he
      · right
        refine ⟨p, List.mem_cons_of_mem q hp, heq, lt_trans h hlt, ?_⟩
        intro e he
        rcases List.mem_cons.mp he with rfl | he
        · exact le_of_lt hlt
        · exact hall e he
    · simp only [findBestGo, if_neg h]
      rcases ih be bs with ⟨heq, hall⟩ | ⟨p, hp, heq, hlt, hall⟩
      · left
        refine ⟨heq, ?_⟩
        intro e he
        rcases List.mem_cons.mp he with rfl | he
        · exact le_of_not_lt h
        · exact hall e he
      · right
        refine ⟨p, List.mem_cons_of_mem q hp, heq, hlt, ?_⟩
        intro e he
        rcases List.mem_cons.mp he with rfl | he
        · exact le_trans (le_of_not_lt h) (le_of_lt hlt)
        · exact hall e he

/- Further facts about updateSession used by several claim proofs. -/

theorem updateSession_get (st : ManagerState) (sd : SessionData)
    (tabId frameId : Nat) (tab : TabInfo) (now : Nat) :
    mapGet (updateSession st sd tabId frameId tab now).1.sessions
      (sessionKey tabId frameId) =
      some (storedSession st sd tabId frameId tab now) := by
  rw [updateSession_sessions, mapGet_set_self]

theorem storedSession_lastActiveAt_new (st : ManagerState) (sd : SessionData)
    (tabId frameId : Nat) (tab : TabInfo) (now : Nat)
    (h : mapGet st.sessions (sessionKey tabId frameId) = none) :
    (storedSession st sd tabId frameId tab now).lastActiveAt = now := by
  unfold storedSession baseSession
  dsimp only
  simp only [h]
  split <;> rfl

theorem storedSession_lastActiveAt_transition (st : ManagerState) (sd : SessionData)
    (tabId frameId : Nat) (tab : TabInfo) (now : Nat) (p : Session)
    (h : mapGet st.sessions (sessionKey tabId frameId) = some p)
    (hp : p.state.paused = true) (hsd : sd.state.paused = false) :
    (storedSession st sd tabId frameId tab now).lastActiveAt = now := by
  unfold storedSession baseSession
  dsimp only
  simp [h, becameActive, hp, hsd]

theorem storedSession_lastActiveAt_no_transition (st : ManagerState) (sd : SessionData)
    (tabId frameId : Nat) (tab : TabInfo) (now : Nat) (p : Session)
    (h : mapGet st.sessions (sessionKey tabId frameId) = some p)
    (hcond : p.state.paused = false ∨ sd.state.paused = true) :
    (storedSession st sd tabId frameId tab now).lastActiveAt = p.lastActiveAt := by
  unfold storedSession baseSession
  dsimp only
  rcases hcond with h1 | h1 <;> simp [h, becameActive, h1]

/-- Claim C1, counterexample: a snapshot with currentTime 10 and known finite
duration 5 is stored by updateSession with currentTime 10 unchanged, so the
registry holds a record whose currentTime exceeds its duration. -/
theorem C1_counterexample :
    (mapGet (updateSession mgr0 (snap (statePlaying 10 5)) 1 0 tab0 1000).1.sessions
        "1:0").map (fun r => r.state.currentTime) = some 10 ∧
    (mapGet (updateSession mgr0 (snap (statePlaying 10 5)) 1 0 tab0 1000).1.sessions
        "1:0").map (fun r => r.state.duration) = some 5 ∧
    ¬ ((10 : ℚ) ≤ (5 : ℚ)) := by
  refine ⟨by decide, by decide, by norm_num⟩

/-- Claim C1, amended: updateSession performs no clamping at all; the stored
record carries the snapshot state verbatim, hence its currentTime lies in
the interval from 0 to its duration exactly when the incoming snapshot
already satisfied that bound. -/
theorem C1_stored_state_verbatim (st : ManagerState) (sd : SessionData)
    (tabId frameId : Nat) (tab : TabInfo) (now : Nat)
    (h0 : 0 ≤ sd.state.currentTime) (h1 : sd.state.currentTime ≤ sd.state.duration) :
    (mapGet (updateSession st sd tabId frameId tab now).1.sessions
        (sessionKey tabId frameId)).map (fun r => r.state) = some sd.state ∧
    (mapGet (updateSession st sd tabId frameId tab now).1.sessions
        (sessionKey tabId frameId)).all
      (fun r => decide (0 ≤ r.state.currentTime) &&
        decide (r.state.currentTime ≤ r.state.duration)) = true := by
  rw [updateSession_get]
  constructor
  · simp [storedSession_state]
  · simp [Option.all, storedSession_state, h0, h1]

/-- Witness for C1 at a concrete in-range snapshot. -/
theorem C1_witness :
    (mapGet (updateSession mgr0 (snap (statePlaying 3 5)) 1 0 tab0 1000).1.sessions
        (sessionKey 1 0)).map (fun r => r.state) = some (snap (statePlaying 3 5)).state ∧
    (mapGet (updateSession mgr0 (snap (statePlaying 3 5)) 1 0 tab0 1000).1.sessions
        (sessionKey 1 0)).all
      (fun r => decide (0 ≤ r.state.currentTime) &&
        decide (r.state.currentTime ≤ r.state.duration)) = true :=
  C1_stored_state_verbatim mgr0 (snap (statePlaying 3 5)) 1 0 tab0 1000
    (by norm_num [snap, statePlaying]) (by norm_num [snap, statePlaying])

/-- Claim C2: lastActiveAt is set to now exactly on (no previous record and
playing) or (previously paused and now playing); otherwise it is inherited
from the previous record, or set to now for a new paused session; and the
active-session pointer moves to the session id exactly in the two transition
cases and stays untouched otherwise. -/
theorem C2_lastActiveAt_pointer (st : ManagerState) (sd : SessionData)
    (tabId frameId : Nat) (tab : TabInfo) (now : Nat) :
    (mapGet st.sessions (sessionKey tabId frameId) = none →
      (mapGet (updateSession st sd tabId frameId tab now).1.sessions
          (sessionKey tabId frameId)).map (fun r => r.lastActiveAt) = some now ∧
      (sd.state.paused = false →
        (updateSession st sd tabId frameId tab now).1.lastActiveSessionId =
          some (sessionKey tabId frameId)) ∧
      (sd.state.paused = true →
        (updateSession st sd tabId frameId tab now).1.lastActiveSessionId =
          st.lastActiveSessionId)) ∧
    (∀ p, mapGet st.sessions (sessionKey tabId frameId) = some p →
      (p.state.paused = true → sd.state.paused = false →
        (mapGet (updateSession st sd tabId frameId tab now).1.sessions
            (sessionKey tabId frameId)).map (fun r => r.lastActiveAt) = some now ∧
        (updateSession st sd tabId frameId tab now).1.lastActiveSessionId =
          some (sessionKey tabId frameId)) ∧
      ((p.state.paused = false ∨ sd.state.paused = true) →
        (mapGet (updateSession st sd tabId frameId tab now).1.sessions
            (sessionKey tabId frameId)).map (fun r => r.lastActiveAt) = some p.lastActiveAt ∧
        (updateSession st sd tabId frameId tab now).1.lastActiveSessionId =
          st.lastActiveSessionId)) := by
  constructor
  · intro hnone
    refine ⟨?_, ?_, ?_⟩
    · rw [updateSession_get]
      simp [storedSession_lastActiveAt_new st sd tabId frameId tab now hnone]
    · intro hplay
      rw [updateSession_pointer, hnone]
      simp [becameActive, hplay]
    · intro hpause
      rw [updateSession_pointer, hnone]
      simp [becameActive, hpause]
  · intro p hp
    constructor
    · intro hpaused hplay
      constructor
      · rw [updateSession_get]
        simp [storedSession_lastActiveAt_transition st sd tabId frameId tab now p hp hpaused hplay]
      · rw [updateSession_pointer, hp]
        simp [becameActive, hpaused, hplay]
    · intro hcond
      constructor
      · rw [updateSession_get]
        simp [storedSession_lastActiveAt_no_transition st sd tabId frameId tab now p hp hcond]
      · rw [updateSession_pointer, hp]
        rcases hcond with h1 | h1 <;> simp [becameActive, h1]

/-- Witness for C2: a new playing session gets lastActiveAt now and grabs the
active pointer. -/
theorem C2_witness :
    (mapGet (updateSession mgr0 (snap (statePlaying 0 100)) 1 0 tab0 1000).1.sessions
        (sessionKey 1 0)).map (fun r => r.lastActiveAt) = some 1000 ∧
    (updateSession mgr0 (snap (statePlaying 0 100)) 1 0 tab0 1000).1.lastActiveSessionId =
      some (sessionKey 1 0) := by
  have h := (C2_lastActiveAt_pointer mgr0 (snap (statePlaying 0 100)) 1 0 tab0 1000).1 rfl
  exact ⟨h.1, h.2.1 rfl⟩

/-- Claim C3: a first snapshot or a paused/playing transition is always
broadcast; the stored record is always replaced with the new snapshot; and
after a broadcast at time t1, a second snapshot with no transition is
broadcast exactly when at least 300ms have elapsed, so two snapshots under
300ms apart yield one broadcast and two at least 300ms apart yield two. -/
theorem C3_broadcast_throttling (st : ManagerState) (sd1 sd2 : SessionData)
    (tabId frameId : Nat) (tab tab2 : TabInfo) (t1 t2 : Nat) :
    (mapGet st.sessions (sessionKey tabId frameId) = none →
      (updateSession st sd1 tabId frameId tab t1).2 = true) ∧
    (∀ p, mapGet st.sessions (sessionKey tabId frameId) = some p →
      p.state.paused ≠ sd1.state.paused →
      (updateSession st sd1 tabId frameId tab t1).2 = true) ∧
    ((mapGet (updateSession st sd1 tabId frameId tab t1).1.sessions
        (sessionKey tabId frameId)).map (fun r => r.state) = some sd1.state) ∧
    ((updateSession st sd1 tabId frameId tab t1).2 = true →
      sd2.state.paused = sd1.state.paused →
      ((updateSession (updateSession st sd1 tabId frameId tab t1).1 sd2 tabId
          frameId tab2 t2).2 = true ↔ (300 : ℤ) ≤ (t2 : ℤ) - (t1 : ℤ))) := by
  refine ⟨?_, ?_, ?_, ?_⟩
  · intro hnone
    rw [updateSession_broadcast, hnone]
    simp [shouldBroadcast]
  · intro p hp hne
    rw [updateSession_broadcast, hp]
    simp [shouldBroadcast, isStateChange]
    exact Or.inl hne
  · rw [updateSession_get]
    simp [storedSession_state]
  · intro hb1 hpp
    rw [updateSession_broadcast] at hb1
    have hts : (updateSession st sd1 tabId frameId tab t1).1.lastBroadcastTimestamps =
        mapSet st.lastBroadcastTimestamps (sessionKey tabId frameId) t1 := by
      rw [updateSession_timestamps, if_pos hb1]
    have hprev2 : mapGet (updateSession st sd1 tabId frameId tab t1).1.sessions
        (sessionKey tabId frameId) = some (storedSession st sd1 tabId frameId tab t1) :=
      updateSession_get st sd1 tabId frameId tab t1
    rw [updateSession_broadcast, hprev2]
    have hnochange : isStateChange (some (storedSession st sd1 tabId frameId tab t1)) sd2
        = false := by
      simp [isStateChange, storedSession_state, hpp]
    unfold shouldBroadcast
    rw [hts, mapGet_set_self, hnochange]
    simp

/-- Witness for C3: a fresh session broadcast at 1000 swallows a progress
snapshot at 1100 but broadcasts one at 1400. -/
theorem C3_witness :
    (updateSession mgr0 (snap (statePlaying 0 100)) 1 0 tab0 1000).2 = true ∧
    (updateSession (updateSession mgr0 (snap (statePlaying 0 100)) 1 0 tab0 1000).1
        (snap (statePlaying 5 100)) 1 0 tab0 1100).2 = false ∧
    (updateSession (updateSession mgr0 (snap (statePlaying 0 100)) 1 0 tab0 1000).1
        (snap (statePlaying 5 100)) 1 0 tab0 1400).2 = true := by
  have hA := C3_broadcast_throttling mgr0 (snap (statePlaying 0 100))
    (snap (statePlaying 5 100)) 1 0 tab0 tab0 1000 1100
  have hB := C3_broadcast_throttling mgr0 (snap (statePlaying 0 100))
    (snap (statePlaying 5 100)) 1 0 tab0 tab0 1000 1400
  have hb1 : (updateSession mgr0 (snap (statePlaying 0 100)) 1 0 tab0 1000).2 = true :=
    hA.1 rfl
  refine ⟨hb1, ?_, (hB.2.2.2 hb1 rfl).mpr (by norm_num)⟩
  have hiff := hA.2.2.2 hb1 rfl
  have hnot : ¬ ((300 : ℤ) ≤ (1100 : ℤ) - (1000 : ℤ)) := by norm_num
  rcases Bool.eq_false_or_eq_true
      (updateSession (updateSession mgr0 (snap (statePlaying 0 100)) 1 0 tab0 1000).1
        (snap (statePlaying 5 100)) 1 0 tab0 1100).2 with h | h
  · exact absurd (hiff.mp h) hnot
  · exact h

/-- Claim C4: removing a session that is not the active one leaves the
active pointer unchanged; removing the active session recomputes the pointer
as the id of the surviving session with the greatest lastActiveAt, or null
when the registry becomes empty. -/
theorem C4_remove_active_recompute (st : ManagerState) (sessionId : String) :
    ((mapGet st.sessions sessionId).isSome = true →
      st.lastActiveSessionId ≠ some sessionId →
      (removeSession st sessionId).1.lastActiveSessionId = st.lastActiveSessionId) ∧
    ((mapGet st.sessions sessionId).isSome = true →
      st.lastActiveSessionId = some sessionId →
      (mapDelete st.sessions sessionId = [] →
        (removeSession st sessionId).1.lastActiveSessionId = none) ∧
      (mapDelete st.sessions sessionId ≠ [] →
        (∀ q ∈ mapDelete st.sessions sessionId, 0 < q.2.lastActiveAt) →
        ∃ p, p ∈ mapDelete st.sessions sessionId ∧
          (removeSession st sessionId).1.lastActiveSessionId = some p.2.id ∧
          ∀ q ∈ mapDelete st.sessions sessionId,
            q.2.lastActiveAt ≤ p.2.lastActiveAt)) := by
  constructor
  · intro hpres hne
    simp [removeSession, hpres, hne]
  · intro hpres hact
    have hpoint : (removeSession st sessionId).1.lastActiveSessionId =
        findMostRecentActiveSession (mapDelete st.sessions sessionId) := by
      simp [removeSession, hpres, hact]
    constructor
    · intro hempty
      rw [hpoint, hempty]
      rfl
    · intro hne hpos
      rcases findMostRecent_spec (mapDelete st.sessions sessionId) none 0 with
        ⟨_, hall⟩ | ⟨p, hp, heq, _, hall⟩
      · exfalso
        rcases List.exists_mem_of_ne_nil _ hne with ⟨q, hq⟩
        exact Nat.lt_irrefl 0 (lt_of_lt_of_le (hpos q hq) (hall q hq))
      · refine ⟨p, hp, ?_, hall⟩
        rw [hpoint, findMostRecentActiveSession, heq]

/-- Witness for C4: removing the active session a reassigns the pointer to
the highest ranked survivor b. -/
theorem C4_witness : (removeSession mgrAB "a").1.lastActiveSessionId = some "b" := by
  have h := (C4_remove_active_recompute mgrAB "a").2 (by decide) rfl
  obtain ⟨p, hp, heq, _⟩ := h.2 (by decide) (by decide)
  have hdel : mapDelete mgrAB.sessions "a" = [("b", sessB)] := by decide
  rw [hdel] at hp
  have hpB : p = ("b", sessB) := by simpa using hp
  rw [hpB] at heq
  exact heq

/-- Claim C5: a candidate with remote playback disabled scores exactly -1 and
is never attached to, even when every other candidate also scores negative;
findAndAttachMedia attaches only to a listed maximum-scoring candidate whose
score is at least 0. -/
theorem C5_disabled_never_attached (l : List MediaElementInfo) (c b : MediaElementInfo)
    (hc : c.disableRemotePlayback = true) (hb : findAndAttachMedia l = some b) :
    scoreMediaElement c = -1 ∧
    b ∈ l ∧ b.disableRemotePlayback = false ∧ 0 ≤ scoreMediaElement b ∧
    ∀ e ∈ l, scoreMediaElement e ≤ scoreMediaElement b := by
  have hscore : ∀ e : MediaElementInfo, e.disableRemotePlayback = true →
      scoreMediaElement e = -1 := by
    intro e he
    unfold scoreMediaElement
    rw [if_pos he]
  refine ⟨hscore c hc, ?_⟩
  unfold findAndAttachMedia at hb
  rcases findBestGo_spec l none (-1) with ⟨heq, _⟩ | ⟨p, hp, heq, _, hall⟩
  · rw [heq] at hb
    exact absurd hb (by simp)
  · rw [heq] at hb
    dsimp only at hb
    by_cases h0 : (0 : ℚ) ≤ scoreMediaElement p
    · rw [if_pos h0] at hb
      obtain rfl : p = b := Option.some.inj hb
      have hdis : p.disableRemotePlayback = false := by
        cases hx : p.disableRemotePlayback
        · rfl
        · have hneg := hscore p hx
          rw [hneg] at h0
          norm_num at h0
      exact ⟨hp, hdis, h0, hall⟩
    · rw [if_neg h0] at hb
      exact absurd hb (by simp)

/-- Witness for C5 on a two-candidate page: the disabled candidate scores -1
and the attached candidate scores at least 0. -/
theorem C5_witness :
    scoreMediaElement ⟨true, 4, false, 1, none, 1, 1, true, false, true⟩ = -1 ∧
    (0 : ℚ) ≤ scoreMediaElement ⟨false, 4, false, 1, none, 1, 1, true, false, true⟩ := by
  have h := C5_disabled_never_attached
    [⟨true, 4, false, 1, none, 1, 1, true, false, true⟩,
     ⟨false, 4, false, 1, none, 1, 1, true, false, true⟩]
    ⟨true, 4, false, 1, none, 1, 1, true, false, true⟩
    ⟨false, 4, false, 1, none, 1, 1, true, false, true⟩
    (by decide) (by norm_num [findAndAttachMedia, findBestGo, scoreMediaElement])
  exact ⟨h.1, h.2.2.2.1⟩

/-- Claim C6: the time-string parser maps 1:23 to 83, 0:45 to 45 and 1:02:03
to 3723, maps a null or empty input to 0, and maps every input whose cleaned
text does not split into an MM:SS or HH:MM:SS shape to 0, never raising. -/
theorem C6_parseTimeString_values :
    parseTimeString (some "1:23") = 83 ∧
    parseTimeString (some "0:45") = 45 ∧
    parseTimeString (some "1:02:03") = 3723 ∧
    parseTimeString none = 0 ∧
    parseTimeString (some "") = 0 ∧
    ∀ s : String, (splitCols (cleanTimeChars s.data)).length ≠ 2 →
      (splitCols (cleanTimeChars s.data)).length ≠ 3 →
      parseTimeString (some s) = 0 := by
  refine ⟨by decide, by decide, by decide, rfl, by decide, ?_⟩
  intro s h2 h3
  by_cases hs : s = ""
  · simp [parseTimeString, hs]
  · unfold parseTimeString
    dsimp only
    rw [if_neg hs]
    generalize hL : splitCols (cleanTimeChars s.data) = L
    rw [hL] at h2 h3
    rcases L with _ | ⟨a, _ | ⟨b, _ | ⟨c, _ | ⟨d, t⟩⟩⟩⟩
    · rfl
    · rfl
    · simp at h2
    · simp at h3
    · rfl

/-- Witness for C6 at an unparseable input. -/
theorem C6_witness : parseTimeString (some "abc") = 0 :=
  C6_parseTimeString_values.2.2.2.2.2 "abc" (by decide) (by decide)

/-- Claim C7: after a toggle at time t recorded by the optimistic side-table,
a broadcast handled before t plus 1000ms is stored with its paused field
replaced by the assumed value and all other fields as received, and one
handled at or after t plus 1000ms is stored unchanged with the override
dropped. -/
theorem C7_optimistic_override (ps : PopupState) (sid : String) (s0 b : Session)
    (t now : Nat) (hs : mapGet ps.sessions sid = some s0) (hb : b.id = sid) :
    ((now : ℤ) - (t : ℤ) < 1000 →
      mapGet (handleSessionUpdated (handleToggle ps sid t).1 b now).sessions sid =
        some { b with state := { b.state with paused := !s0.state.paused } }) ∧
    ((1000 : ℤ) ≤ (now : ℤ) - (t : ℤ) →
      mapGet (handleSessionUpdated (handleToggle ps sid t).1 b now).sessions sid =
        some b ∧
      mapGet (handleSessionUpdated (handleToggle ps sid t).1 b now).optimisticStates
        sid = none) := by
  have hpo : (handleToggle ps sid t).1.optimisticStates = mapSet ps.optimisticStates sid
      { paused := !s0.state.paused, timestamp := t } := by
    simp [handleToggle, hs]
  have hopt : mapGet (handleToggle ps sid t).1.optimisticStates b.id =
      some { paused := !s0.state.paused, timestamp := t } := by
    rw [hpo, hb]
    exact mapGet_set_self _ _ _
  constructor
  · intro hlt
    unfold handleSessionUpdated
    rw [hopt]
    dsimp only
    rw [if_pos hlt]
    rw [hb]
    exact mapGet_set_self _ _ _
  · intro hge
    have hnlt : ¬ ((now : ℤ) - (t : ℤ) < 1000) := not_lt.mpr hge
    unfold handleSessionUpdated
    rw [hopt]
    dsimp only
    rw [if_neg hnlt]
    constructor
    · rw [hb]
      exact mapGet_set_self _ _ _
    · rw [hb]
      exact mapGet_delete_self _ _

/-- Witness for C7: a toggle at 2000 overrides a stale broadcast at 2500 but
not one at 3000. -/
theorem C7_witness :
    mapGet (handleSessionUpdated (handleToggle pop1 "1:0" 2000).1 sessP 2500).sessions
      "1:0" = some { sessP with state := { sessP.state with paused := !sessP.state.paused } } ∧
    mapGet (handleSessionUpdated (handleToggle pop1 "1:0" 2000).1 sessP 3000).sessions
      "1:0" = some sessP := by
  have h1 := C7_optimistic_override pop1 "1:0" sessP sessP 2000 2500 rfl rfl
  have h2 := C7_optimistic_override pop1 "1:0" sessP sessP 2000 3000 rfl rfl
  exact ⟨h1.1 (by norm_num), (h2.2 (by norm_num)).1⟩

/-- Claim C8: while the progress bar is flagged dragging, handling an inbound
session update leaves the rendered progress position and time text unchanged
while other card fields are still updated; and the drag-end handler emits
exactly one setTime followed by exactly one endSeek, in that order. -/
theorem C8_drag_suppression (card : CardView) (session : Session) (d : ℚ)
    (h : card.dragging = true) :
    (updateSessionCardDOM card session).progressFillPct = card.progressFillPct ∧
    (updateSessionCardDOM card session).progressHandlePct = card.progressHandlePct ∧
    (updateSessionCardDOM card session).currentTimeText = card.currentTimeText ∧
    (updateSessionCardDOM card session).durationText = card.durationText ∧
    (updateSessionCardDOM card session).pausedIcon = session.state.paused ∧
    (updateSessionCardDOM card session).mutedIcon = session.state.muted ∧
    (onDragEnd card d).2 = [PopupCommand.setTime (card.progressFillPct / 100 * d),
      PopupCommand.endSeek] ∧
    (onDragEnd card d).1.dragging = false := by
  unfold updateSessionCardDOM onDragEnd
  simp [h]

/-- Witness for C8 on the dragging card fixture and a paused session. -/
theorem C8_witness :
    (updateSessionCardDOM cardDrag sessP).progressFillPct = cardDrag.progressFillPct ∧
    (updateSessionCardDOM cardDrag sessP).currentTimeText = cardDrag.currentTimeText ∧
    (updateSessionCardDOM cardDrag sessP).pausedIcon = sessP.state.paused ∧
    (onDragEnd cardDrag 100).2 = [PopupCommand.setTime (cardDrag.progressFillPct / 100 * 100),
      PopupCommand.endSeek] := by
  have h := C8_drag_suppression cardDrag sessP 100 rfl
  exact ⟨h.1, h.2.2.1, h.2.2.2.2.1, h.2.2.2.2.2.2.1⟩

/-- Claim C9, evaluated at the failing input: after attaching to a real
element and then attaching to a second one (which detaches the first), all 8
event subscriptions of the first element are still registered, because
detachFromElement passes freshly bound function objects to
removeEventListener and never attempts the events beyond play and pause; only
the coalescing timer is cleared.  Stale callbacks can therefore still fire. -/
theorem C9_detach_leaves_stale_listeners :
    ((attachToElement (attachToElement
        { mediaElement := none, updateThrottle := none, nextFnId := 0, listeners := [] }
        { elemId := 1, isVirtual := false })
        { elemId := 2, isVirtual := false }).listeners.filter
      (fun t => t.1.elemId == 1)).length = 8 ∧
    (attachToElement (attachToElement
        { mediaElement := none, updateThrottle := none, nextFnId := 0, listeners := [] }
        { elemId := 1, isVirtual := false })
        { elemId := 2, isVirtual := false }).mediaElement =
      some { elemId := 2, isVirtual := false } ∧
    (detachFromElement (attachToElement
        { mediaElement := none, updateThrottle := some 7, nextFnId := 0, listeners := [] }
        { elemId := 1, isVirtual := false })).updateThrottle = none := by
  refine ⟨by decide, by decide, by decide⟩

/-- Claim C10: removing a session id that is not in the registry is a no-op:
the registry, the active pointer and the broadcast flag all stay unchanged
and no SESSION_REMOVED message is sent. -/
theorem C10_remove_absent_noop (st : ManagerState) (sessionId : String)
    (h : mapGet st.sessions sessionId = none) :
    removeSession st sessionId = (st, false) := by
  unfold removeSession
  simp [h, mapDelete_of_get_none st.sessions sessionId h]

/-- Witness for C10 on the empty registry. -/
theorem C10_witness : removeSession mgr0 "1:0" = (mgr0, false) :=
  C10_remove_absent_noop mgr0 "1:0" rfl
